import Mathlib

/-!
Shallow embedding of the user-authentication service
(`0x03-user_authentication_service/auth.py`, `db.py`, `user.py`, and
`0x00-personal_data/encrypt_password.py`).

Randomness is threaded explicitly: the bcrypt salt and the generated
uuid token are passed as arguments.  Exceptions become `Except Err`.
The SQLAlchemy session is replaced by an explicit `DBState` value; a
`commit` is one pure state transition.
-/

deriving instance DecidableEq for Except

/-- Errors observable by callers.  `noResultFound` models
`sqlalchemy.orm.exc.NoResultFound`; `invalidRequest` models
`sqlalchemy.exc.InvalidRequestError` (which `MultipleResultsFound`
is a subclass of, so `query(...).one()` on two or more rows surfaces
here after `DB.find_user_by` re-raises it); `valueError msg` models a
Python `ValueError(msg)`. -/
inductive Err where
  | noResultFound
  | invalidRequest
  | valueError (msg : String)
deriving DecidableEq

/-- Modelled from the spec: the external bcrypt library (CredentialHasher,
section 4.1 of the spec).  A hash records the salt used and the digest of
the password under that salt; the digest function itself is kept abstract
as a parameter `digest : Nat -> String -> String`, so theorems hold for
every digest. -/
structure BcryptHash where
  salt : Nat
  value : String
deriving DecidableEq

/-- Modelled from the spec: `bcrypt.hashpw(password, salt)` — a salted
one-way hash that embeds its salt. -/
def hashpw (digest : Nat → String → String) (password : String) (salt : Nat) : BcryptHash :=
  BcryptHash.mk salt (digest salt password)

/-- Modelled from the spec: `bcrypt.checkpw(password, hashed)` — re-hashes
`password` with the salt embedded in `hashed` and compares. -/
def checkpw (digest : Nat → String → String) (password : String) (hashed : BcryptHash) : Bool :=
  digest hashed.salt password == hashed.value

/-- `encrypt_password.hash_password`: hashes a password with a
randomly generated salt (the salt is threaded as an argument). -/
def hash_password (digest : Nat → String → String) (password : String) (salt : Nat) : BcryptHash :=
  hashpw digest password salt

/-- `encrypt_password.is_valid`: validates a password against a hash
via `bcrypt.checkpw`. -/
def is_valid (digest : Nat → String → String) (hashed : BcryptHash) (password : String) : Bool :=
  checkpw digest password hashed

/-- `auth._hash_password`: hashes a password using bcrypt. -/
def _hash_password (digest : Nat → String → String) (password : String) (salt : Nat) : BcryptHash :=
  hashpw digest password salt

/-- The `users` table row (`user.py`): id is the integer primary key,
`email` and `hashed_password` are non-nullable, `session_id` and
`reset_token` are nullable. -/
structure User where
  id : Nat
  email : String
  hashed_password : BcryptHash
  session_id : Option String
  reset_token : Option String
deriving DecidableEq

/-- The keyword arguments actually passed to `DB.find_user_by` by the
code under `src/`: `email=`, `session_id=`, `reset_token=`, `id=`. -/
inductive Criteria where
  | byEmail (e : String)
  | bySessionId (s : String)
  | byResetToken (t : String)
  | byId (i : Nat)

/-- Whether a row matches a `filter_by` criterion.  A SQL `NULL`
column never equals a string value. -/
def matchesCriteria : Criteria → User → Bool
  | Criteria.byEmail e, u => u.email == e
  | Criteria.bySessionId s, u => u.session_id == some s
  | Criteria.byResetToken t, u => u.reset_token == some t
  | Criteria.byId i, u => u.id == i

/-- The persistent store: the rows of the `users` table plus the next
autoincrement primary key. -/
structure DBState where
  users : List User
  nextId : Nat
deriving DecidableEq

/-- The freshly initialised database (`DB.__init__` drops and recreates
the table; SQLite autoincrement starts at 1). -/
def emptyDB : DBState := DBState.mk [] 1

/-- `DB.find_user_by`: `query(User).filter_by(**kwargs).one()`.
Zero matches raise `NoResultFound`; two or more raise
`MultipleResultsFound`, caught by the `except InvalidRequestError`
branch and re-raised as `InvalidRequestError`. -/
def find_user_by (db : DBState) (c : Criteria) : Except Err User :=
  match db.users.filter (matchesCriteria c) with
  | [u] => Except.ok u
  | [] => Except.error Err.noResultFound
  | _ => Except.error Err.invalidRequest

/-- `DB.add_user`: persists a new row with the given email and hashed
password and returns it; `session_id` and `reset_token` start NULL. -/
def add_user (db : DBState) (email : String) (hashed_password : BcryptHash) :
    User × DBState :=
  let u := User.mk db.nextId email hashed_password none none
  (u, DBState.mk (db.users ++ [u]) (db.nextId + 1))

/-- One row after `setattr` has been applied for each keyword argument
that was present: `none` means the field was not in `kwargs`, `some v`
means it was set to `v` (for the nullable columns, `some none` sets the
column to SQL NULL). -/
def User.applyUpdate (u : User) (hp : Option BcryptHash)
    (sid : Option (Option String)) (rt : Option (Option String)) : User :=
  User.mk u.id u.email (hp.getD u.hashed_password)
    (sid.getD u.session_id) (rt.getD u.reset_token)

/-- The row transformation a successful `DB.update_user(i, ...)` commits:
the row with primary key `i` gets the updates, every other row is
unchanged. -/
def updFun (i : Nat) (hp : Option BcryptHash)
    (sid : Option (Option String)) (rt : Option (Option String)) (v : User) : User :=
  if v.id == i then v.applyUpdate hp sid rt else v

/-- `DB.update_user`: looks the row up by id (exceptions from
`find_user_by` propagate), applies the keyword updates, commits once.
The three optional arguments mirror the only keyword arguments the
`Auth` code passes: `hashed_password`, `session_id`, `reset_token`
(all of which pass the `hasattr` check). -/
def update_user (db : DBState) (user_id : Nat) (hp : Option BcryptHash)
    (sid : Option (Option String)) (rt : Option (Option String)) : Except Err DBState :=
  match find_user_by db (Criteria.byId user_id) with
  | Except.ok _ =>
      Except.ok (DBState.mk (db.users.map (updFun user_id hp sid rt)) db.nextId)
  | Except.error e => Except.error e

/-- `Auth.register_user`: if `find_user_by(email=email)` succeeds, the
`raise ValueError(f"User {email} already exists")` inside the `try`
block is not a `NoResultFound`, so it propagates; on `NoResultFound`
the except-branch hashes the password and persists via `add_user`.
Any other exception from the lookup also propagates. -/
def register_user (digest : Nat → String → String) (db : DBState)
    (email password : String) (salt : Nat) : Except Err (User × DBState) :=
  match find_user_by db (Criteria.byEmail email) with
  | Except.ok _ =>
      Except.error (Err.valueError ("User " ++ email ++ " already exists"))
  | Except.error Err.noResultFound =>
      Except.ok (add_user db email (_hash_password digest password salt))
  | Except.error e => Except.error e

/-- `Auth.valid_login`: looks up by email; `NoResultFound` is caught
and becomes `false`; a found user is checked with `bcrypt.checkpw`
against the stored hash; any other exception propagates. -/
def valid_login (digest : Nat → String → String) (db : DBState)
    (email password : String) : Except Err Bool :=
  match find_user_by db (Criteria.byEmail email) with
  | Except.ok user => Except.ok (checkpw digest password user.hashed_password)
  | Except.error Err.noResultFound => Except.ok false
  | Except.error e => Except.error e

/-- `Auth.create_session`: calls `find_user_by(email=email)` with no
try/except, so `NoResultFound` (and any other exception) propagates.
The Python `if user:` test always succeeds on a returned row (a `User`
instance is truthy), and its `return None` branch is unreachable. -/
def create_session (db : DBState) (email : String) (tok : String) :
    Except Err (Option String × DBState) :=
  match find_user_by db (Criteria.byEmail email) with
  | Except.ok user =>
      match update_user db user.id none (some (some tok)) none with
      | Except.ok db' => Except.ok (some tok, db')
      | Except.error e => Except.error e
  | Except.error e => Except.error e

/-- `Auth.get_user_from_session_id`: returns `None` only when the
argument is Python `None`; otherwise looks up by `session_id`,
catching `NoResultFound` into `None`.  Other exceptions propagate. -/
def get_user_from_session_id (db : DBState) (session_id : Option String) :
    Except Err (Option User) :=
  match session_id with
  | none => Except.ok none
  | some s =>
      match find_user_by db (Criteria.bySessionId s) with
      | Except.ok u => Except.ok (some u)
      | Except.error Err.noResultFound => Except.ok none
      | Except.error e => Except.error e

/-- `Auth.destroy_session`: sets the user's `session_id` to NULL via
`update_user`; exceptions (in particular `NoResultFound` for an
unknown id) propagate. -/
def destroy_session (db : DBState) (user_id : Nat) : Except Err DBState :=
  update_user db user_id none (some none) none

/-- `Auth.get_reset_password_token`: the whole body sits in one `try`
whose `except NoResultFound` raises `ValueError("User not found")`;
on success the generated uuid is stored as the user's `reset_token`
and returned. -/
def get_reset_password_token (db : DBState) (email : String) (tok : String) :
    Except Err (String × DBState) :=
  let body : Except Err (String × DBState) :=
    match find_user_by db (Criteria.byEmail email) with
    | Except.ok user =>
        match update_user db user.id none none (some (some tok)) with
        | Except.ok db' => Except.ok (tok, db')
        | Except.error e => Except.error e
    | Except.error e => Except.error e
  match body with
  | Except.error Err.noResultFound => Except.error (Err.valueError "User not found")
  | r => r

/-- `Auth.update_password`: the whole body sits in one `try` whose
`except NoResultFound` raises `ValueError("Invalid reset token")`;
on success one `update_user` call sets the new hash and clears the
reset token in the same commit. -/
def update_password (digest : Nat → String → String) (db : DBState)
    (reset_token password : String) (salt : Nat) : Except Err DBState :=
  let body : Except Err DBState :=
    match find_user_by db (Criteria.byResetToken reset_token) with
    | Except.ok user =>
        update_user db user.id (some (_hash_password digest password salt))
          none (some none)
    | Except.error e => Except.error e
  match body with
  | Except.error Err.noResultFound => Except.error (Err.valueError "Invalid reset token")
  | r => r

/-- A concrete digest function used to instantiate the abstract bcrypt
digest in witnesses. -/
def bcryptDigest (salt : Nat) (password : String) : String :=
  toString salt ++ "$" ++ password

/-- Well-formedness of the table: primary keys are pairwise distinct
(SQLite enforces this for an autoincrement primary key). -/
def UniqueIds (db : DBState) : Prop :=
  db.users.Pairwise (fun a b => a.id ≠ b.id)

instance decUniqueIds (db : DBState) : Decidable (UniqueIds db) :=
  inferInstanceAs (Decidable (db.users.Pairwise (fun (a b : User) => a.id ≠ b.id)))

/-! Concrete fixtures used by witnesses and counterexamples. -/

/-- A registered user used by witnesses. -/
def wUser : User := User.mk 1 "a@x.com" (hashpw bcryptDigest "pw0" 7) none none

/-- A one-user database used by witnesses. -/
def wDB : DBState := DBState.mk [wUser] 2

/-- A user holding a pending reset token, used by witnesses. -/
def wUserR : User := User.mk 1 "a@x.com" (hashpw bcryptDigest "pw0" 7) none (some "t1")

/-- A one-user database whose user holds reset token "t1". -/
def wDBr : DBState := DBState.mk [wUserR] 2

/-- A database holding two rows with the same email and the same
session id (the schema does not forbid this). -/
def wDup : DBState :=
  DBState.mk
    [User.mk 1 "d@x.com" (hashpw bcryptDigest "p1" 3) (some "sid") none,
     User.mk 2 "d@x.com" (hashpw bcryptDigest "p2" 4) (some "sid") none] 3

/-- A user whose stored session id is the empty string. -/
def c6user : User := User.mk 1 "a@x.com" (hashpw bcryptDigest "pw0" 7) (some "") none

/-- A one-user database whose user's session id is the empty string. -/
def c6db : DBState := DBState.mk [c6user] 2

/-! Helper lemmas about `filter`, `updFun` and the DB primitives. -/

theorem _hash_password_eq (digest : Nat → String → String) (p : String) (salt : Nat) :
    _hash_password digest p salt = hashpw digest p salt := rfl

theorem matches_byEmail (e : String) :
    matchesCriteria (Criteria.byEmail e) = fun v => v.email == e := rfl

theorem matches_bySessionId (s : String) :
    matchesCriteria (Criteria.bySessionId s) = fun v => v.session_id == some s := rfl

theorem matches_byResetToken (t : String) :
    matchesCriteria (Criteria.byResetToken t) = fun v => v.reset_token == some t := rfl

theorem matches_byId (i : Nat) :
    matchesCriteria (Criteria.byId i) = fun v => v.id == i := rfl

theorem updFun_id_eq (i : Nat) (hp : Option BcryptHash) (sid rt : Option (Option String))
    (v : User) : (updFun i hp sid rt v).id = v.id := by
  unfold updFun; split <;> rfl

theorem updFun_email_eq (i : Nat) (hp : Option BcryptHash) (sid rt : Option (Option String))
    (v : User) : (updFun i hp sid rt v).email = v.email := by
  unfold updFun; split <;> rfl

theorem updFun_of_ne {i : Nat} {hp : Option BcryptHash} {sid rt : Option (Option String)}
    {v : User} (h : v.id ≠ i) : updFun i hp sid rt v = v := by
  unfold updFun; simp [h]

theorem updFun_self {i : Nat} {hp : Option BcryptHash} {sid rt : Option (Option String)}
    {v : User} (h : v.id = i) : updFun i hp sid rt v = v.applyUpdate hp sid rt := by
  unfold updFun; simp [h]

theorem filter_singleton_mem {l : List User} {p : User → Bool} {u : User}
    (h : l.filter p = [u]) : u ∈ l ∧ p u = true := by
  have hu : u ∈ l.filter p := by rw [h]; exact List.mem_singleton_self u
  exact ⟨(List.mem_filter.mp hu).1, (List.mem_filter.mp hu).2⟩

theorem filter_map_comm (l : List User) (g : User → User) (q : User → Bool)
    (hq : ∀ v, q (g v) = q v) :
    (l.map g).filter q = (l.filter q).map g := by
  have hfun : q ∘ g = q := funext hq
  rw [List.filter_map, hfun]

theorem filter_id_singleton {l : List User} {u : User}
    (huniq : l.Pairwise fun a b => a.id ≠ b.id) (hu : u ∈ l) :
    l.filter (fun v => v.id == u.id) = [u] := by
  induction l with
  | nil => cases hu
  | cons a t ih =>
    rw [List.pairwise_cons] at huniq
    rcases List.mem_cons.mp hu with rfl | h
    · rw [List.filter_cons_of_pos (by simp)]
      have ht : t.filter (fun v => v.id == u.id) = [] := by
        rw [List.filter_eq_nil_iff]
        intro v hv
        simp only [beq_iff_eq]
        exact fun hee => (huniq.1 v hv) hee.symm
      rw [ht]
    · have hane : a.id ≠ u.id := huniq.1 u h
      rw [List.filter_cons_of_neg (by simp [hane])]
      exact ih huniq.2 h

theorem filter_updFun_set {l : List User} {u : User} {hp : Option BcryptHash}
    {sid rt : Option (Option String)} {q : User → Bool}
    (huniq : l.Pairwise fun a b => a.id ≠ b.id) (hu : u ∈ l)
    (hq0 : ∀ v ∈ l, q v = false)
    (hq1 : q (u.applyUpdate hp sid rt) = true) :
    (l.map (updFun u.id hp sid rt)).filter q = [u.applyUpdate hp sid rt] := by
  induction l with
  | nil => cases hu
  | cons a t ih =>
    rw [List.pairwise_cons] at huniq
    rcases List.mem_cons.mp hu with rfl | h
    · rw [List.map_cons, updFun_self rfl, List.filter_cons_of_pos hq1]
      have ht : (t.map (updFun u.id hp sid rt)).filter q = [] := by
        rw [List.filter_eq_nil_iff]
        intro x hx
        rcases List.mem_map.mp hx with ⟨v, hv, rfl⟩
        rw [updFun_of_ne (fun hh => (huniq.1 v hv) hh.symm),
          hq0 v (List.mem_cons_of_mem _ hv)]
        simp
      rw [ht]
    · have hane : a.id ≠ u.id := huniq.1 u h
      rw [List.map_cons, updFun_of_ne hane,
        List.filter_cons_of_neg (by rw [hq0 a (List.mem_cons_self _ _)]; simp)]
      exact ih huniq.2 h (fun v hv => hq0 v (List.mem_cons_of_mem _ hv))

theorem filter_updFun_clear {l : List User} {i : Nat} {hp : Option BcryptHash}
    {sid rt : Option (Option String)} {q : User → Bool}
    (hq0 : ∀ v ∈ l, v.id ≠ i → q v = false)
    (hq1 : ∀ v : User, q (v.applyUpdate hp sid rt) = false) :
    (l.map (updFun i hp sid rt)).filter q = [] := by
  rw [List.filter_eq_nil_iff]
  intro x hx
  rcases List.mem_map.mp hx with ⟨v, hv, rfl⟩
  by_cases hid : v.id = i
  · rw [updFun_self hid, hq1 v]; simp
  · rw [updFun_of_ne hid, hq0 v hv hid]; simp

theorem uniqueIds_map {db : DBState} (h : UniqueIds db) (i : Nat) (hp : Option BcryptHash)
    (sid rt : Option (Option String)) :
    UniqueIds (DBState.mk (db.users.map (updFun i hp sid rt)) db.nextId) := by
  unfold UniqueIds at h ⊢
  rw [List.pairwise_map]
  refine h.imp ?_
  intro a b hab
  rw [updFun_id_eq, updFun_id_eq]
  exact hab

theorem find_ok_of_filter {db : DBState} {c : Criteria} {u : User}
    (h : db.users.filter (matchesCriteria c) = [u]) :
    find_user_by db c = Except.ok u := by
  unfold find_user_by; rw [h]

theorem find_none_of_filter {db : DBState} {c : Criteria}
    (h : db.users.filter (matchesCriteria c) = []) :
    find_user_by db c = Except.error Err.noResultFound := by
  unfold find_user_by; rw [h]

theorem find_many_of_filter {db : DBState} {c : Criteria}
    (h : 2 ≤ (db.users.filter (matchesCriteria c)).length) :
    find_user_by db c = Except.error Err.invalidRequest := by
  unfold find_user_by
  rcases hl : db.users.filter (matchesCriteria c) with _ | ⟨a, t⟩
  · rw [hl] at h; simp at h
  · rcases t with _ | ⟨b, t'⟩
    · rw [hl] at h; simp at h
    · rfl

theorem update_user_ok {db : DBState} {u : User} (huniq : UniqueIds db)
    (hu : u ∈ db.users) (hp : Option BcryptHash) (sid rt : Option (Option String)) :
    update_user db u.id hp sid rt =
      Except.ok (DBState.mk (db.users.map (updFun u.id hp sid rt)) db.nextId) := by
  have hfind : find_user_by db (Criteria.byId u.id) = Except.ok u := by
    apply find_ok_of_filter
    rw [matches_byId]
    exact filter_id_singleton huniq hu
  unfold update_user
  rw [hfind]

theorem update_user_missing {db : DBState} {i : Nat}
    (h : ∀ v ∈ db.users, v.id ≠ i) (hp : Option BcryptHash)
    (sid rt : Option (Option String)) :
    update_user db i hp sid rt = Except.error Err.noResultFound := by
  have hfind : find_user_by db (Criteria.byId i) = Except.error Err.noResultFound := by
    apply find_none_of_filter
    rw [matches_byId, List.filter_eq_nil_iff]
    intro v hv
    simp [h v hv]
  unfold update_user
  rw [hfind]

theorem get_user_some (db : DBState) (s : String) :
    get_user_from_session_id db (some s) =
      match find_user_by db (Criteria.bySessionId s) with
      | Except.ok u => Except.ok (some u)
      | Except.error Err.noResultFound => Except.ok none
      | Except.error e => Except.error e := rfl

/-- C1: on an email not present in the repository, `create_session`
does NOT return null: `find_user_by` raises `NoResultFound` and
`Auth.create_session` has no try/except around it, so the exception
propagates to the caller.  Evaluating the embedded code on the
concrete failing input from the spec's own test bullet shows the
error result (the unreachable `return None` branch notwithstanding). -/
theorem create_session_missing_email_raises :
    create_session emptyDB "missing@x.com" "tok" = Except.error Err.noResultFound ∧
    create_session emptyDB "missing@x.com" "tok" ≠
      Except.ok ((none : Option String), emptyDB) := by
  constructor
  · decide
  · decide

/-- C7: `valid_login` returns `false` (and does not throw) when no
user with the given email exists, and when exactly one user matches it
returns exactly the result of `bcrypt.checkpw` of the supplied
password against that user's stored hash. -/
theorem valid_login_contract (digest : Nat → String → String) (db : DBState)
    (e p : String) (u : User) :
    ((∀ v ∈ db.users, v.email ≠ e) → valid_login digest db e p = Except.ok false) ∧
    (db.users.filter (fun v => v.email == e) = [u] →
      valid_login digest db e p = Except.ok (checkpw digest p u.hashed_password)) := by
  constructor
  · intro h0
    have hfind : find_user_by db (Criteria.byEmail e) = Except.error Err.noResultFound := by
      apply find_none_of_filter
      rw [matches_byEmail, List.filter_eq_nil_iff]
      intro v hv
      simp [h0 v hv]
    unfold valid_login
    rw [hfind]
  · intro h1
    have hfind : find_user_by db (Criteria.byEmail e) = Except.ok u := by
      apply find_ok_of_filter
      rw [matches_byEmail]
      exact h1
    unfold valid_login
    rw [hfind]

/-- C7 witness: concrete instantiation of `valid_login_contract`,
discharging both hypotheses on concrete databases. -/
theorem valid_login_contract_witness :
    ((∀ v ∈ emptyDB.users, v.email ≠ "missing@x.com") ∧
      valid_login bcryptDigest emptyDB "missing@x.com" "p" = Except.ok false) ∧
    (wDB.users.filter (fun v => v.email == "a@x.com") = [wUser] ∧
      valid_login bcryptDigest wDB "a@x.com" "pw0" =
        Except.ok (checkpw bcryptDigest "pw0" wUser.hashed_password)) :=
  ⟨⟨by decide,
    (valid_login_contract bcryptDigest emptyDB "missing@x.com" "p" wUser).1 (by decide)⟩,
   ⟨by decide,
    (valid_login_contract bcryptDigest wDB "a@x.com" "pw0" wUser).2 (by decide)⟩⟩

/-- C9: verifying a password against its own fresh hash succeeds, for
any digest function, both for the standalone
`hash_password`/`is_valid` pair and for the `_hash_password`/`checkpw`
pair used by the auth service. -/
theorem verify_hash_roundtrip (digest : Nat → String → String) (p : String) (salt : Nat) :
    is_valid digest (hash_password digest p salt) p = true ∧
    checkpw digest p ( _hash_password digest p salt) = true := by
  constructor <;> simp [is_valid, hash_password, _hash_password, hashpw, checkpw]

/-- C10: with two or more rows matching the same lookup criteria,
`query(...).one()` raises `MultipleResultsFound`, which
`DB.find_user_by` re-raises as `InvalidRequestError` — not the
`NoResultFound` the callers catch — so `valid_login`,
`create_session` and `get_user_from_session_id` all propagate an
exception instead of returning false/null. -/
theorem duplicate_users_error (digest : Nat → String → String) (db : DBState)
    (e p tok s : String) :
    (2 ≤ (db.users.filter (fun v => v.email == e)).length →
      find_user_by db (Criteria.byEmail e) = Except.error Err.invalidRequest ∧
      valid_login digest db e p = Except.error Err.invalidRequest ∧
      create_session db e tok = Except.error Err.invalidRequest) ∧
    (2 ≤ (db.users.filter (fun v => v.session_id == some s)).length →
      get_user_from_session_id db (some s) = Except.error Err.invalidRequest) := by
  constructor
  · intro h2
    have hfind : find_user_by db (Criteria.byEmail e) = Except.error Err.invalidRequest := by
      apply find_many_of_filter
      rw [matches_byEmail]
      exact h2
    refine ⟨hfind, ?_, ?_⟩
    · unfold valid_login
      rw [hfind]
    · unfold create_session
      rw [hfind]
  · intro h2
    have hfind : find_user_by db (Criteria.bySessionId s) = Except.error Err.invalidRequest := by
      apply find_many_of_filter
      rw [matches_bySessionId]
      exact h2
    rw [get_user_some, hfind]

/-- C10 witness: the two-duplicate database `wDup` triggers the
`invalidRequest` propagation in all three callers. -/
theorem duplicate_users_error_witness :
    (2 ≤ (wDup.users.filter (fun v => v.email == "d@x.com")).length ∧
      (find_user_by wDup (Criteria.byEmail "d@x.com") = Except.error Err.invalidRequest ∧
        valid_login bcryptDigest wDup "d@x.com" "p" = Except.error Err.invalidRequest ∧
        create_session wDup "d@x.com" "t" = Except.error Err.invalidRequest)) ∧
    (2 ≤ (wDup.users.filter (fun v => v.session_id == some "sid")).length ∧
      get_user_from_session_id wDup (some "sid") = Except.error Err.invalidRequest) :=
  ⟨⟨by decide,
    (duplicate_users_error bcryptDigest wDup "d@x.com" "p" "t" "sid").1 (by decide)⟩,
   ⟨by decide,
    (duplicate_users_error bcryptDigest wDup "d@x.com" "p" "t" "sid").2 (by decide)⟩⟩

/-- C6 counterexample: the code short-circuits only on Python `None`,
not on the empty string.  On a database whose single user's stored
session id is the empty string, `get_user_from_session_id(db, "")`
performs the lookup and returns that user — not null as the claim
states — so the claim fails at this concrete input. -/
theorem get_user_empty_string_counterexample :
    get_user_from_session_id c6db (some "") = Except.ok (some c6user) ∧
    get_user_from_session_id c6db (some "") ≠ Except.ok (none : Option User) := by
  constructor
  · decide
  · decide

/-- C6 amended: `get_user_from_session_id` returns null immediately,
with no repository lookup, only when the session id argument is absent
(Python `None`); an empty-string argument is looked up like any other
string, returning null exactly when no user's stored session id equals
it; and for any session id with no matching user it returns null
rather than raising. -/
theorem get_user_from_session_id_amended (db : DBState) (s : String) :
    get_user_from_session_id db none = Except.ok none ∧
    ((∀ v ∈ db.users, v.session_id ≠ some s) →
      get_user_from_session_id db (some s) = Except.ok none) := by
  constructor
  · rfl
  · intro h0
    have hfind : find_user_by db (Criteria.bySessionId s) = Except.error Err.noResultFound := by
      apply find_none_of_filter
      rw [matches_bySessionId, List.filter_eq_nil_iff]
      intro v hv
      simp [h0 v hv]
    rw [get_user_some, hfind]

/-- C6 amended witness: concrete instantiation, including the empty
string being looked up and returning null on a database where no user
holds it. -/
theorem get_user_from_session_id_amended_witness :
    (∀ v ∈ wDB.users, v.session_id ≠ some "") ∧
    get_user_from_session_id wDB (some "") = Except.ok none :=
  ⟨by decide, (get_user_from_session_id_amended wDB "").2 (by decide)⟩

/-- C5: `register_user` fails with `ValueError("User <email> already
exists")` when the email lookup finds the record (the database value is
untouched — the embedded function returns no new state on this path),
and otherwise hashes the password and persists a fresh record via
`add_user`, returning it. -/
theorem register_user_contract (digest : Nat → String → String) (db : DBState)
    (e p : String) (salt : Nat) (u : User) :
    (db.users.filter (fun v => v.email == e) = [u] →
      register_user digest db e p salt =
        Except.error (Err.valueError ("User " ++ e ++ " already exists"))) ∧
    ((∀ v ∈ db.users, v.email ≠ e) →
      register_user digest db e p salt =
        Except.ok (User.mk db.nextId e (hashpw digest p salt) none none,
          DBState.mk
            (db.users ++ [User.mk db.nextId e (hashpw digest p salt) none none])
            (db.nextId + 1))) := by
  constructor
  · intro h1
    have hfind : find_user_by db (Criteria.byEmail e) = Except.ok u := by
      apply find_ok_of_filter
      rw [matches_byEmail]
      exact h1
    unfold register_user
    rw [hfind]
  · intro h0
    have hfind : find_user_by db (Criteria.byEmail e) = Except.error Err.noResultFound := by
      apply find_none_of_filter
      rw [matches_byEmail, List.filter_eq_nil_iff]
      intro v hv
      simp [h0 v hv]
    unfold register_user
    rw [hfind]
    rfl

/-- C5 witness: registering a fresh email on the empty database adds
the record; registering `wUser`'s email again fails with the
already-exists error. -/
theorem register_user_contract_witness :
    ((wDB.users.filter (fun v => v.email == "a@x.com") = [wUser]) ∧
      register_user bcryptDigest wDB "a@x.com" "q" 9 =
        Except.error (Err.valueError ("User " ++ "a@x.com" ++ " already exists"))) ∧
    ((∀ v ∈ emptyDB.users, v.email ≠ "b@x.com") ∧
      register_user bcryptDigest emptyDB "b@x.com" "q" 9 =
        Except.ok (User.mk emptyDB.nextId "b@x.com" (hashpw bcryptDigest "q" 9) none none,
          DBState.mk
            (emptyDB.users ++ [User.mk emptyDB.nextId "b@x.com" (hashpw bcryptDigest "q" 9) none none])
            (emptyDB.nextId + 1))) :=
  ⟨⟨by decide,
    (register_user_contract bcryptDigest wDB "a@x.com" "q" 9 wUser).1 (by decide)⟩,
   ⟨by decide,
    (register_user_contract bcryptDigest emptyDB "b@x.com" "q" 9 wUser).2 (by decide)⟩⟩

/-- C8: `get_reset_password_token` fails with `ValueError("User not
found")` when no user has the given email, and otherwise persists the
generated token as that user's `reset_token` and returns it: the
result state differs from the input only at that user's row, whose
`reset_token` is now the token. -/
theorem get_reset_password_token_contract (db : DBState) (e tok : String) (u : User)
    (huniq : UniqueIds db) :
    ((∀ v ∈ db.users, v.email ≠ e) →
      get_reset_password_token db e tok = Except.error (Err.valueError "User not found")) ∧
    (db.users.filter (fun v => v.email == e) = [u] →
      get_reset_password_token db e tok =
        Except.ok (tok,
          DBState.mk (db.users.map (updFun u.id none none (some (some tok)))) db.nextId) ∧
      (db.users.map (updFun u.id none none (some (some tok)))).filter
          (fun v => v.id == u.id) =
        [User.mk u.id u.email u.hashed_password u.session_id (some tok)]) := by
  constructor
  · intro h0
    have hfind : find_user_by db (Criteria.byEmail e) = Except.error Err.noResultFound := by
      apply find_none_of_filter
      rw [matches_byEmail, List.filter_eq_nil_iff]
      intro v hv
      simp [h0 v hv]
    unfold get_reset_password_token
    rw [hfind]
  · intro h1
    have hfindm : db.users.filter (matchesCriteria (Criteria.byEmail e)) = [u] := by
      rw [matches_byEmail]
      exact h1
    have hmem : u ∈ db.users := (filter_singleton_mem hfindm).1
    have hfind : find_user_by db (Criteria.byEmail e) = Except.ok u :=
      find_ok_of_filter hfindm
    have hupd := update_user_ok huniq hmem none none (some (some tok))
    constructor
    · simp only [get_reset_password_token, hfind, hupd]
    · rw [filter_map_comm _ _ _ (fun v => by rw [updFun_id_eq]),
        filter_id_singleton huniq hmem]
      simp [updFun, User.applyUpdate]

/-- C8 witness: concrete instantiation of both branches of
`get_reset_password_token_contract`. -/
theorem get_reset_password_token_contract_witness :
    UniqueIds wDB ∧
    ((∀ v ∈ wDB.users, v.email ≠ "missing@x.com") ∧
      get_reset_password_token wDB "missing@x.com" "t9" =
        Except.error (Err.valueError "User not found")) ∧
    (wDB.users.filter (fun v => v.email == "a@x.com") = [wUser] ∧
      (get_reset_password_token wDB "a@x.com" "t9" =
        Except.ok ("t9",
          DBState.mk (wDB.users.map (updFun wUser.id none none (some (some "t9")))) wDB.nextId) ∧
      (wDB.users.map (updFun wUser.id none none (some (some "t9")))).filter
          (fun v => v.id == wUser.id) =
        [User.mk wUser.id wUser.email wUser.hashed_password wUser.session_id (some "t9")])) :=
  ⟨by decide,
   ⟨by decide,
    (get_reset_password_token_contract wDB "missing@x.com" "t9" wUser (by decide)).1
      (by decide)⟩,
   ⟨by decide,
    (get_reset_password_token_contract wDB "a@x.com" "t9" wUser (by decide)).2
      (by decide)⟩⟩

/-- C2: `update_password` fails with `ValueError("Invalid reset
token")` when no user holds the reset token (returning no new state),
and otherwise persists the new password hash and clears that user's
`reset_token` in one `update_user` call — a single state transition,
so no state with only one of the two changes is ever returned to
callers: the result state's matching row carries both the new hash
and a cleared token, and every other row is untouched. -/
theorem update_password_contract (digest : Nat → String → String) (db : DBState)
    (t p : String) (salt : Nat) (u : User)
    (huniq : UniqueIds db) :
    ((∀ v ∈ db.users, v.reset_token ≠ some t) →
      update_password digest db t p salt =
        Except.error (Err.valueError "Invalid reset token")) ∧
    (db.users.filter (fun v => v.reset_token == some t) = [u] →
      update_password digest db t p salt =
        Except.ok (DBState.mk
          (db.users.map (updFun u.id (some (hashpw digest p salt)) none (some none)))
          db.nextId) ∧
      (db.users.map (updFun u.id (some (hashpw digest p salt)) none (some none))).filter
          (fun v => v.id == u.id) =
        [User.mk u.id u.email (hashpw digest p salt) u.session_id none] ∧
      ∀ v ∈ db.users, v.id ≠ u.id →
        v ∈ db.users.map (updFun u.id (some (hashpw digest p salt)) none (some none))) := by
  constructor
  · intro h0
    have hfind : find_user_by db (Criteria.byResetToken t) = Except.error Err.noResultFound := by
      apply find_none_of_filter
      rw [matches_byResetToken, List.filter_eq_nil_iff]
      intro v hv
      simp [h0 v hv]
    unfold update_password
    rw [hfind]
  · intro h1
    have hfindm : db.users.filter (matchesCriteria (Criteria.byResetToken t)) = [u] := by
      rw [matches_byResetToken]
      exact h1
    have hmem : u ∈ db.users := (filter_singleton_mem hfindm).1
    have hfind : find_user_by db (Criteria.byResetToken t) = Except.ok u :=
      find_ok_of_filter hfindm
    have hupd := update_user_ok huniq hmem (some (hashpw digest p salt)) none (some none)
    refine ⟨?_, ?_, ?_⟩
    · simp only [update_password, _hash_password_eq, hfind, hupd]
    · rw [filter_map_comm _ _ _ (fun v => by rw [updFun_id_eq]),
        filter_id_singleton huniq hmem]
      simp [updFun, User.applyUpdate]
    · intro v hv hne
      exact List.mem_map.mpr ⟨v, hv, updFun_of_ne hne⟩

/-- C2 witness: concrete instantiation of both branches of
`update_password_contract`. -/
theorem update_password_contract_witness :
    (UniqueIds wDB ∧ (∀ v ∈ wDB.users, v.reset_token ≠ some "zz") ∧
      update_password bcryptDigest wDB "zz" "new" 5 =
        Except.error (Err.valueError "Invalid reset token")) ∧
    (UniqueIds wDBr ∧ wDBr.users.filter (fun v => v.reset_token == some "t1") = [wUserR] ∧
      (update_password bcryptDigest wDBr "t1" "new" 5 =
        Except.ok (DBState.mk
          (wDBr.users.map (updFun wUserR.id (some (hashpw bcryptDigest "new" 5)) none (some none)))
          wDBr.nextId) ∧
      (wDBr.users.map (updFun wUserR.id (some (hashpw bcryptDigest "new" 5)) none (some none))).filter
          (fun v => v.id == wUserR.id) =
        [User.mk wUserR.id wUserR.email (hashpw bcryptDigest "new" 5) wUserR.session_id none] ∧
      ∀ v ∈ wDBr.users, v.id ≠ wUserR.id →
        v ∈ wDBr.users.map (updFun wUserR.id (some (hashpw bcryptDigest "new" 5)) none (some none)))) :=
  ⟨⟨by decide, by decide,
    (update_password_contract bcryptDigest wDB "zz" "new" 5 wUserR (by decide)).1 (by decide)⟩,
   ⟨by decide, by decide,
    (update_password_contract bcryptDigest wDBr "t1" "new" 5 wUserR (by decide)).2 (by decide)⟩⟩

/-- C4: after `create_session` stores a fresh token for the user found
by email, `get_user_from_session_id` on that token returns that same
user (same id, email, hash — with the new session id); after
`destroy_session(user.id)` the token no longer resolves and
`get_user_from_session_id` returns null; and `destroy_session` on an
id not in the repository propagates `NoResultFound` from
`update_user`'s lookup.  Freshness of the generated token (no user
already holds it) reflects the TokenGenerator contract. -/
theorem session_lifecycle (db : DBState) (e tok : String) (u : User) (i : Nat)
    (huniq : UniqueIds db)
    (hfind : db.users.filter (fun v => v.email == e) = [u])
    (hfresh : ∀ v ∈ db.users, v.session_id ≠ some tok) :
    create_session db e tok =
      Except.ok (some tok,
        DBState.mk (db.users.map (updFun u.id none (some (some tok)) none)) db.nextId) ∧
    get_user_from_session_id
        (DBState.mk (db.users.map (updFun u.id none (some (some tok)) none)) db.nextId)
        (some tok) =
      Except.ok (some (User.mk u.id u.email u.hashed_password (some tok) u.reset_token)) ∧
    destroy_session
        (DBState.mk (db.users.map (updFun u.id none (some (some tok)) none)) db.nextId)
        u.id =
      Except.ok (DBState.mk
        ((db.users.map (updFun u.id none (some (some tok)) none)).map
          (updFun u.id none (some none) none)) db.nextId) ∧
    get_user_from_session_id
        (DBState.mk
          ((db.users.map (updFun u.id none (some (some tok)) none)).map
            (updFun u.id none (some none) none)) db.nextId)
        (some tok) =
      Except.ok none ∧
    ((∀ v ∈ db.users, v.id ≠ i) →
      destroy_session db i = Except.error Err.noResultFound) := by
  have hfindm : db.users.filter (matchesCriteria (Criteria.byEmail e)) = [u] := by
    rw [matches_byEmail]
    exact hfind
  have hmem : u ∈ db.users := (filter_singleton_mem hfindm).1
  have hfOK : find_user_by db (Criteria.byEmail e) = Except.ok u :=
    find_ok_of_filter hfindm
  have hupd1 := update_user_ok huniq hmem none (some (some tok)) none
  have huniq1 : UniqueIds (DBState.mk
      (db.users.map (updFun u.id none (some (some tok)) none)) db.nextId) :=
    uniqueIds_map huniq u.id none (some (some tok)) none
  have hg1u : updFun u.id none (some (some tok)) none u =
      User.mk u.id u.email u.hashed_password (some tok) u.reset_token := by
    rw [updFun_self rfl]
    rfl
  have hmem1 : User.mk u.id u.email u.hashed_password (some tok) u.reset_token ∈
      db.users.map (updFun u.id none (some (some tok)) none) := by
    rw [← hg1u]
    exact List.mem_map_of_mem _ hmem
  refine ⟨?_, ?_, ?_, ?_, ?_⟩
  · simp only [create_session, hfOK, hupd1]
  · have h0 : ∀ v ∈ db.users, (v.session_id == some tok) = false := by
      intro v hv
      simp [hfresh v hv]
    have h1 : ((u.applyUpdate none (some (some tok)) none).session_id == some tok) = true := by
      simp [User.applyUpdate]
    have hfilter1 := filter_updFun_set huniq hmem h0 h1
    have hfOK1 : find_user_by
        (DBState.mk (db.users.map (updFun u.id none (some (some tok)) none)) db.nextId)
        (Criteria.bySessionId tok) =
        Except.ok (User.mk u.id u.email u.hashed_password (some tok) u.reset_token) := by
      apply find_ok_of_filter
      rw [matches_bySessionId]
      rw [show (DBState.mk (db.users.map (updFun u.id none (some (some tok)) none))
        db.nextId).users = db.users.map (updFun u.id none (some (some tok)) none) from rfl]
      rw [hfilter1]
      rfl
    rw [get_user_some, hfOK1]
  · unfold destroy_session
    exact update_user_ok huniq1 hmem1 none (some none) none
  · have hfilter2 : ((db.users.map (updFun u.id none (some (some tok)) none)).map
        (updFun u.id none (some none) none)).filter
        (fun v => v.session_id == some tok) = [] := by
      apply filter_updFun_clear
      · intro v hv hne
        rcases List.mem_map.mp hv with ⟨w, hw, rfl⟩
        rw [updFun_id_eq] at hne
        rw [updFun_of_ne hne]
        simp [hfresh w hw]
      · intro v
        simp [User.applyUpdate]
    have hfErr : find_user_by
        (DBState.mk
          ((db.users.map (updFun u.id none (some (some tok)) none)).map
            (updFun u.id none (some none) none)) db.nextId)
        (Criteria.bySessionId tok) = Except.error Err.noResultFound := by
      apply find_none_of_filter
      rw [matches_bySessionId]
      exact hfilter2
    rw [get_user_some, hfErr]
  · intro h0
    unfold destroy_session
    exact update_user_missing h0 none (some none) none

/-- C4 witness: concrete instantiation of the whole session lifecycle
on the one-user database `wDB`, with the fresh token "s1" and the
absent user id 99. -/
theorem session_lifecycle_witness :
    UniqueIds wDB ∧
    wDB.users.filter (fun v => v.email == "a@x.com") = [wUser] ∧
    (∀ v ∈ wDB.users, v.session_id ≠ some "s1") ∧
    (create_session wDB "a@x.com" "s1" =
      Except.ok (some "s1",
        DBState.mk (wDB.users.map (updFun wUser.id none (some (some "s1")) none)) wDB.nextId) ∧
    get_user_from_session_id
        (DBState.mk (wDB.users.map (updFun wUser.id none (some (some "s1")) none)) wDB.nextId)
        (some "s1") =
      Except.ok (some (User.mk wUser.id wUser.email wUser.hashed_password (some "s1")
        wUser.reset_token)) ∧
    destroy_session
        (DBState.mk (wDB.users.map (updFun wUser.id none (some (some "s1")) none)) wDB.nextId)
        wUser.id =
      Except.ok (DBState.mk
        ((wDB.users.map (updFun wUser.id none (some (some "s1")) none)).map
          (updFun wUser.id none (some none) none)) wDB.nextId) ∧
    get_user_from_session_id
        (DBState.mk
          ((wDB.users.map (updFun wUser.id none (some (some "s1")) none)).map
            (updFun wUser.id none (some none) none)) wDB.nextId)
        (some "s1") =
      Except.ok none ∧
    ((∀ v ∈ wDB.users, v.id ≠ 99) →
      destroy_session wDB 99 = Except.error Err.noResultFound)) :=
  ⟨by decide, by decide, by decide,
    session_lifecycle wDB "a@x.com" "s1" wUser 99 (by decide) (by decide) (by decide)⟩

/-- C3: for a registered user found by email, `get_reset_password_token`
returns fresh token `t1` with the state updated, `update_password(t1,
newPw)` then succeeds, after which `valid_login` accepts the new
password, rejects the old one (assuming the two digests differ — the
spec's own no-collision caveat), and a second `update_password`
reusing `t1` fails with `ValueError("Invalid reset token")` because
the token was cleared and no other user ever held it. -/
theorem password_reset_flow (digest : Nat → String → String) (db : DBState)
    (e oldPw newPw anotherPw t1 : String) (salt2 salt3 : Nat) (u : User)
    (huniq : UniqueIds db)
    (hfind : db.users.filter (fun v => v.email == e) = [u])
    (hfresh : ∀ v ∈ db.users, v.reset_token ≠ some t1)
    (hnocol : digest salt2 oldPw ≠ digest salt2 newPw) :
    get_reset_password_token db e t1 =
      Except.ok (t1,
        DBState.mk (db.users.map (updFun u.id none none (some (some t1)))) db.nextId) ∧
    update_password digest
        (DBState.mk (db.users.map (updFun u.id none none (some (some t1)))) db.nextId)
        t1 newPw salt2 =
      Except.ok (DBState.mk
        ((db.users.map (updFun u.id none none (some (some t1)))).map
          (updFun u.id (some (hashpw digest newPw salt2)) none (some none))) db.nextId) ∧
    valid_login digest
        (DBState.mk
          ((db.users.map (updFun u.id none none (some (some t1)))).map
            (updFun u.id (some (hashpw digest newPw salt2)) none (some none))) db.nextId)
        e newPw =
      Except.ok true ∧
    valid_login digest
        (DBState.mk
          ((db.users.map (updFun u.id none none (some (some t1)))).map
            (updFun u.id (some (hashpw digest newPw salt2)) none (some none))) db.nextId)
        e oldPw =
      Except.ok false ∧
    update_password digest
        (DBState.mk
          ((db.users.map (updFun u.id none none (some (some t1)))).map
            (updFun u.id (some (hashpw digest newPw salt2)) none (some none))) db.nextId)
        t1 anotherPw salt3 =
      Except.error (Err.valueError "Invalid reset token") := by
  have hfindm : db.users.filter (matchesCriteria (Criteria.byEmail e)) = [u] := by
    rw [matches_byEmail]
    exact hfind
  have hmem : u ∈ db.users := (filter_singleton_mem hfindm).1
  have hfOK : find_user_by db (Criteria.byEmail e) = Except.ok u :=
    find_ok_of_filter hfindm
  have hupd1 := update_user_ok huniq hmem none none (some (some t1))
  have huniq1 : UniqueIds (DBState.mk
      (db.users.map (updFun u.id none none (some (some t1)))) db.nextId) :=
    uniqueIds_map huniq u.id none none (some (some t1))
  have hg1u : updFun u.id none none (some (some t1)) u =
      User.mk u.id u.email u.hashed_password u.session_id (some t1) := by
    rw [updFun_self rfl]
    rfl
  have hmem1 : User.mk u.id u.email u.hashed_password u.session_id (some t1) ∈
      db.users.map (updFun u.id none none (some (some t1))) := by
    rw [← hg1u]
    exact List.mem_map_of_mem _ hmem
  have h0r : ∀ v ∈ db.users, (v.reset_token == some t1) = false := by
    intro v hv
    simp [hfresh v hv]
  have h1r : ((u.applyUpdate none none (some (some t1))).reset_token == some t1) = true := by
    simp [User.applyUpdate]
  have hfilterR1 := filter_updFun_set huniq hmem h0r h1r
  have hfR1 : find_user_by
      (DBState.mk (db.users.map (updFun u.id none none (some (some t1)))) db.nextId)
      (Criteria.byResetToken t1) =
      Except.ok (User.mk u.id u.email u.hashed_password u.session_id (some t1)) := by
    apply find_ok_of_filter
    rw [matches_byResetToken]
    rw [show (DBState.mk (db.users.map (updFun u.id none none (some (some t1))))
      db.nextId).users = db.users.map (updFun u.id none none (some (some t1))) from rfl]
    rw [hfilterR1]
    rfl
  have hupd2 : update_user
      (DBState.mk (db.users.map (updFun u.id none none (some (some t1)))) db.nextId)
      u.id (some (hashpw digest newPw salt2)) none (some none) =
      Except.ok (DBState.mk
        ((db.users.map (updFun u.id none none (some (some t1)))).map
          (updFun u.id (some (hashpw digest newPw salt2)) none (some none))) db.nextId) :=
    update_user_ok huniq1 hmem1 (some (hashpw digest newPw salt2)) none (some none)
  have hg2u1 : updFun u.id (some (hashpw digest newPw salt2)) none (some none)
      (User.mk u.id u.email u.hashed_password u.session_id (some t1)) =
      User.mk u.id u.email (hashpw digest newPw salt2) u.session_id none := by
    simp [updFun, User.applyUpdate]
  have hfilterE1 : (db.users.map (updFun u.id none none (some (some t1)))).filter
      (fun v => v.email == e) =
      [User.mk u.id u.email u.hashed_password u.session_id (some t1)] := by
    rw [filter_map_comm _ _ _ (fun v => by rw [updFun_email_eq]), hfind]
    simp [hg1u]
  have hfilterE2 : ((db.users.map (updFun u.id none none (some (some t1)))).map
      (updFun u.id (some (hashpw digest newPw salt2)) none (some none))).filter
      (fun v => v.email == e) =
      [User.mk u.id u.email (hashpw digest newPw salt2) u.session_id none] := by
    rw [filter_map_comm _ _ _ (fun v => by rw [updFun_email_eq]), hfilterE1]
    simp [hg2u1]
  have hfE2 : find_user_by
      (DBState.mk
        ((db.users.map (updFun u.id none none (some (some t1)))).map
          (updFun u.id (some (hashpw digest newPw salt2)) none (some none))) db.nextId)
      (Criteria.byEmail e) =
      Except.ok (User.mk u.id u.email (hashpw digest newPw salt2) u.session_id none) := by
    apply find_ok_of_filter
    rw [matches_byEmail]
    exact hfilterE2
  refine ⟨?_, ?_, ?_, ?_, ?_⟩
  · simp only [get_reset_password_token, hfOK, hupd1]
  · simp only [update_password, _hash_password_eq, hfR1, hupd2]
  · unfold valid_login
    rw [hfE2]
    simp [checkpw, hashpw]
  · unfold valid_login
    rw [hfE2]
    simp [checkpw, hashpw, hnocol]
  · have hfilterR2 : ((db.users.map (updFun u.id none none (some (some t1)))).map
        (updFun u.id (some (hashpw digest newPw salt2)) none (some none))).filter
        (fun v => v.reset_token == some t1) = [] := by
      apply filter_updFun_clear
      · intro v hv hne
        rcases List.mem_map.mp hv with ⟨w, hw, rfl⟩
        rw [updFun_id_eq] at hne
        rw [updFun_of_ne hne]
        simp [hfresh w hw]
      · intro v
        simp [User.applyUpdate]
    have hfErr2 : find_user_by
        (DBState.mk
          ((db.users.map (updFun u.id none none (some (some t1)))).map
            (updFun u.id (some (hashpw digest newPw salt2)) none (some none))) db.nextId)
        (Criteria.byResetToken t1) = Except.error Err.noResultFound := by
      apply find_none_of_filter
      rw [matches_byResetToken]
      exact hfilterR2
    unfold update_password
    rw [hfErr2]

/-- C3 witness: the whole reset flow run concretely on `wDB` with old
password "pw0", new password "pw1", reset token "r1". -/
theorem password_reset_flow_witness :
    UniqueIds wDB ∧
    wDB.users.filter (fun v => v.email == "a@x.com") = [wUser] ∧
    (∀ v ∈ wDB.users, v.reset_token ≠ some "r1") ∧
    bcryptDigest 5 "pw0" ≠ bcryptDigest 5 "pw1" ∧
    (get_reset_password_token wDB "a@x.com" "r1" =
      Except.ok ("r1",
        DBState.mk (wDB.users.map (updFun wUser.id none none (some (some "r1")))) wDB.nextId) ∧
    update_password bcryptDigest
        (DBState.mk (wDB.users.map (updFun wUser.id none none (some (some "r1")))) wDB.nextId)
        "r1" "pw1" 5 =
      Except.ok (DBState.mk
        ((wDB.users.map (updFun wUser.id none none (some (some "r1")))).map
          (updFun wUser.id (some (hashpw bcryptDigest "pw1" 5)) none (some none))) wDB.nextId) ∧
    valid_login bcryptDigest
        (DBState.mk
          ((wDB.users.map (updFun wUser.id none none (some (some "r1")))).map
            (updFun wUser.id (some (hashpw bcryptDigest "pw1" 5)) none (some none))) wDB.nextId)
        "a@x.com" "pw1" =
      Except.ok true ∧
    valid_login bcryptDigest
        (DBState.mk
          ((wDB.users.map (updFun wUser.id none none (some (some "r1")))).map
            (updFun wUser.id (some (hashpw bcryptDigest "pw1" 5)) none (some none))) wDB.nextId)
        "a@x.com" "pw0" =
      Except.ok false ∧
    update_password bcryptDigest
        (DBState.mk
          ((wDB.users.map (updFun wUser.id none none (some (some "r1")))).map
            (updFun wUser.id (some (hashpw bcryptDigest "pw1" 5)) none (some none))) wDB.nextId)
        "r1" "pw2" 6 =
      Except.error (Err.valueError "Invalid reset token")) :=
  ⟨by decide, by decide, by decide, by decide,
    password_reset_flow bcryptDigest wDB "a@x.com" "pw0" "pw1" "pw2" "r1" 5 6 wUser
      (by decide) (by decide) (by decide) (by decide)⟩
